import Mathlib

/-!
Verification of the DhartiSetu backend's Resilient Multi-Model Inference
Gateway: the model registry/loader (`app/models/loader.py`,
`app/config.py`), the per-domain prediction routes for flood, storm, AQI
and CO2 (`app/routers/flood.py`, `app/routers/storm.py`,
`app/routers/aqi.py`, `app/routers/co2.py`), their rule-based fallback
estimators, and the classification threshold functions.

Embedding conventions:
* Python floats are embedded as `ℚ`; all constants of the routers are far
  from representability boundaries, so exact rational arithmetic reflects
  the float computations faithfully for the properties proved here.
* A loaded predictor artifact is opaque in the source (`predict`,
  `predict_proba`, optional `n_features_in_`); it is embedded as a record
  whose behaviour on a feature vector is either a returned number or a
  raised exception.
* Request validation, bilingual labels and the explanation catalog are
  presentation concerns that no verified property depends on; response
  records keep only `success`, the numeric value, the bucket and the
  confidence.
-/

/-- Kernel of Python's `round` at integer precision: round half to even
(banker's rounding), used by `round(x, 1)` in the routers. -/
def roundHalfEvenZ (x : ℚ) : ℤ :=
  if x - ⌊x⌋ < 1/2 then ⌊x⌋
  else if 1/2 < x - ⌊x⌋ then ⌊x⌋ + 1
  else if ⌊x⌋ % 2 = 0 then ⌊x⌋ else ⌊x⌋ + 1

/-- Python's `round(x, 1)`: one decimal digit, ties to even. -/
def pyRound1 (x : ℚ) : ℚ := (roundHalfEvenZ (x * 10) : ℚ) / 10

/-- Embeds `get_aqi_category` from `app/routers/aqi.py` (lines 15-28). -/
def get_aqi_category (aqi_value : ℚ) : String :=
  if aqi_value ≤ 50 then "good"
  else if aqi_value ≤ 100 then "moderate"
  else if aqi_value ≤ 150 then "unhealthy_sensitive"
  else if aqi_value ≤ 200 then "unhealthy"
  else if aqi_value ≤ 300 then "very_unhealthy"
  else "hazardous"

/-- The flood risk classification of `predict_flood_risk`
(`app/routers/flood.py` lines 80-88). -/
def floodRiskLevel (p : ℚ) : String :=
  if p ≥ 7/10 then "high"
  else if p ≥ 4/10 then "moderate"
  else "low"

/-- The storm risk classification of `predict_storm`
(`app/routers/storm.py` lines 68-76). -/
def stormRiskLevel (p : ℚ) : String :=
  if p ≥ 7/10 then "high"
  else if p ≥ 4/10 then "moderate"
  else "low"

/-- Rank of a risk bucket, "safer" buckets ranked lower; used to state
monotonicity of the risk classifications. -/
def riskRank (bucket : String) : ℕ :=
  if bucket = "low" then 0 else if bucket = "moderate" then 1 else 2

/-- Embeds `FloodRequest` (`app/models/schemas.py` lines 77-84): the numeric
fields used by the flood route. `flood_history` is an `int` field
(validated 0..10); the other three are floats. -/
structure FloodRequest where
  rainfall_mm : ℚ
  river_level : ℚ
  elevation : ℚ
  flood_history : ℤ

/-- Embeds `calculate_flood_risk_fallback` from `app/routers/flood.py`
(lines 134-167). -/
def calculate_flood_risk_fallback (request : FloodRequest) : ℚ :=
  let risk : ℚ := 0
  -- Rainfall
  let risk := risk +
    (if request.rainfall_mm > 300 then 4/10
     else if request.rainfall_mm > 200 then 3/10
     else if request.rainfall_mm > 100 then 2/10
     else 1/10)
  -- River level
  let risk := risk +
    (if request.river_level > 10 then 3/10
     else if request.river_level > 5 then 2/10
     else 1/10)
  -- Elevation
  let risk := risk +
    (if request.elevation < 50 then 15/100
     else if request.elevation < 100 then 1/10
     else 5/100)
  -- Historical floods
  let risk := risk + min (15/100) ((request.flood_history : ℚ) * (3/100))
  min 1 risk

/-- Embeds `StormRequest` (`app/models/schemas.py` lines 138-144): numeric
fields used by the storm route. `month` is an `int` field (1..12). -/
structure StormRequest where
  month : ℤ
  wind_speed : ℚ
  pressure : ℚ
  humidity : ℚ

/-- Embeds `estimate_storm_risk_fallback` from `app/routers/storm.py`
(lines 124-150). -/
def estimate_storm_risk_fallback (request : StormRequest) : ℚ :=
  let risk : ℚ := 0
  let risk := risk +
    (if request.wind_speed > 100 then 4/10
     else if request.wind_speed > 60 then 25/100
     else if request.wind_speed > 40 then 15/100
     else 0)
  let risk := risk +
    (if request.pressure < 990 then 35/100
     else if request.pressure < 1000 then 2/10
     else if request.pressure < 1010 then 1/10
     else 0)
  let risk := risk +
    (if request.humidity > 85 then 15/100
     else if request.humidity > 70 then 1/10
     else 0)
  let risk := if request.month = 4 ∨ request.month = 5 ∨
                 request.month = 10 ∨ request.month = 11
              then risk * (13/10) else risk
  min 1 risk

/-- Outcome of one predictor invocation on a feature vector: the routers
wrap the call in `try`, so the artifact either yields a float or raises.
For classifier artifacts the routers select the positive-class entry of
`predict_proba`; `ok q` stands for the float the whole attempt produced
(lines 60-66 of `flood.py`, 51-57 of `storm.py`). -/
inductive PredictResult where
  | raises : PredictResult
  | ok : ℚ → PredictResult
deriving DecidableEq

/-- A loaded flood predictor: optional declared input width
(`n_features_in_`, absent ⇒ `none`) and its behaviour on a feature
vector. -/
structure FloodModel where
  n_features_in_ : Option ℕ
  behave : List ℚ → PredictResult

/-- Feature-width reconciliation of `predict_flood_risk`
(`app/routers/flood.py` lines 41-58): `expected_features` is
`getattr(model, "n_features_in_", None)`, and `if expected_features:` is
Python truthiness, so both `None` and a declared width of `0` leave the
canonical vector unmodified; a positive width pads with zeros on the
right or truncates to the first `w` entries. -/
def floodReconcile (base : List ℚ) (expected : Option ℕ) : List ℚ :=
  match expected with
  | none => base
  | some w =>
      if w = 0 then base
      else if w > base.length then base ++ List.replicate (w - base.length) 0
      else base.take w

/-- Feature-width reconciliation of `predict_storm`
(`app/routers/storm.py` lines 42-49): the width defaults to the canonical
length when undeclared, then pads with zeros or truncates. -/
def stormReconcile (base : List ℚ) (expected : Option ℕ) : List ℚ :=
  let w := expected.getD base.length
  if w > base.length then base ++ List.replicate (w - base.length) 0
  else base.take w

/-- Response record for the flood and storm routes: the fields of
`PredictionResponse` that carry verified content (`success`, the rounded
probability percentage, the risk bucket, the confidence). -/
structure RiskResponse where
  success : Bool
  probability_pct : ℚ
  risk_level : String
  confidence : ℚ

/-- The canonical flood feature vector (`flood.py` lines 43-48). -/
def floodBaseFeatures (request : FloodRequest) : List ℚ :=
  [request.rainfall_mm, request.river_level, request.elevation,
   (request.flood_history : ℚ)]

/-- Embeds `predict_flood_risk` (`app/routers/flood.py` lines 19-106), the body
of the outer `try`. `model` is the `"model"` entry of
`model_loader.get_all("flood")`: `none` covers both an absent bundle and
a bundle with no `"model"` key (`if model_data and "model" in
model_data`). The fallback probability is computed first; a present
model's prediction overwrites it unless the prediction raises, in which
case the fallback is recomputed; the probability is then clamped to
[0, 1] (line 75). -/
def floodPipelineProbability (request : FloodRequest)
    (model : Option FloodModel) : ℚ :=
  let flood_probability := calculate_flood_risk_fallback request
  let flood_probability :=
    match model with
    | none => flood_probability
    | some m =>
        match m.behave (floodReconcile (floodBaseFeatures request) m.n_features_in_) with
        | .raises => calculate_flood_risk_fallback request
        | .ok q => q
  max 0 (min 1 flood_probability)

/-- The normal-flow response of `predict_flood_risk`: classify the
clamped probability (lines 80-88) and answer with the constant
confidence 0.82 (line 103). -/
def predict_flood_risk (request : FloodRequest) (model : Option FloodModel) :
    RiskResponse :=
  let flood_probability := floodPipelineProbability request model
  { success := true
    probability_pct := pyRound1 (flood_probability * 100)
    risk_level := floodRiskLevel flood_probability
    confidence := 82/100 }

/-- The outer `except` handler of `predict_flood_risk`
(`app/routers/flood.py` lines 108-128): still a successful response, a
hard-coded 30.0% / "low" prediction, confidence 0.5. -/
def floodExceptionResponse : RiskResponse :=
  { success := true, probability_pct := 30, risk_level := "low",
    confidence := 1/2 }

/-- A loaded storm predictor. -/
structure StormModel where
  n_features_in_ : Option ℕ
  behave : List ℚ → PredictResult

/-- The canonical storm feature vector (`storm.py` lines 35-40). -/
def stormBaseFeatures (request : StormRequest) : List ℚ :=
  [(request.month : ℚ), request.wind_speed, request.pressure,
   request.humidity]

/-- Embeds `predict_storm` (`app/routers/storm.py` lines 15-96), the body of the
outer `try`; same structure as the flood route, confidence constant
0.76. -/
def stormPipelineProbability (request : StormRequest)
    (model : Option StormModel) : ℚ :=
  let storm_probability := estimate_storm_risk_fallback request
  let storm_probability :=
    match model with
    | none => storm_probability
    | some m =>
        match m.behave (stormReconcile (stormBaseFeatures request) m.n_features_in_) with
        | .raises => estimate_storm_risk_fallback request
        | .ok q => q
  max 0 (min 1 storm_probability)

/-- The normal-flow response of `predict_storm`: classify the clamped
probability (lines 68-76) and answer with the constant confidence 0.76
(line 93). -/
def predict_storm (request : StormRequest) (model : Option StormModel) :
    RiskResponse :=
  let storm_probability := stormPipelineProbability request model
  { success := true
    probability_pct := pyRound1 (storm_probability * 100)
    risk_level := stormRiskLevel storm_probability
    confidence := 76/100 }

/-- The outer `except` handler of `predict_storm` (`storm.py` lines
98-118): successful response, 20.0% / "low", confidence 0.5. -/
def stormExceptionResponse : RiskResponse :=
  { success := true, probability_pct := 20, risk_level := "low",
    confidence := 1/2 }

/-- Embeds `AQIRequest` (`app/models/schemas.py` lines 43-51): the schema
declares exactly `city`, the six pollutant floats and `language` —
in particular no `temperature`, `humidity`, `wind_speed`, `pressure` or
`visibility` field. -/
structure AQIRequest where
  city : String
  pm25 : ℚ
  pm10 : ℚ
  no2 : ℚ
  so2 : ℚ
  co : ℚ
  o3 : ℚ

/-- The inner loop of `calculate_component` inside
`calculate_aqi_fallback` (`app/routers/aqi.py` lines 152-156): scan the
breakpoint tuples `(lo, hi, aqiLo, aqiHi)` and linearly interpolate on
the first bracket containing the concentration; return 0 when none
does. -/
def calculate_component (concentration : ℚ) :
    List (ℚ × ℚ × ℚ × ℚ) → ℚ
  | [] => 0
  | (lo, hi, aqiLo, aqiHi) :: rest =>
      if lo ≤ concentration ∧ concentration ≤ hi then
        ((aqiHi - aqiLo) / (hi - lo)) * (concentration - lo) + aqiLo
      else calculate_component concentration rest

/-- PM2.5 breakpoint table (`aqi.py` lines 159-163). -/
def pm25Breakpoints : List (ℚ × ℚ × ℚ × ℚ) :=
  [(0, 12, 0, 50), (121/10, 354/10, 51, 100), (355/10, 554/10, 101, 150),
   (555/10, 1504/10, 151, 200), (1505/10, 2504/10, 201, 300),
   (2505/10, 3504/10, 301, 400), (3505/10, 5004/10, 401, 500)]

/-- PM10 breakpoint table (`aqi.py` lines 166-170). -/
def pm10Breakpoints : List (ℚ × ℚ × ℚ × ℚ) :=
  [(0, 54, 0, 50), (55, 154, 51, 100), (155, 254, 101, 150),
   (255, 354, 151, 200), (355, 424, 201, 300), (425, 504, 301, 400),
   (505, 604, 401, 500)]

/-- NO2 breakpoint table (`aqi.py` lines 173-177). -/
def no2Breakpoints : List (ℚ × ℚ × ℚ × ℚ) :=
  [(0, 53, 0, 50), (54, 100, 51, 100), (101, 360, 101, 150),
   (361, 649, 151, 200), (650, 1249, 201, 300), (1250, 1649, 301, 400),
   (1650, 2049, 401, 500)]

/-- Embeds `calculate_aqi_fallback` (`app/routers/aqi.py` lines 149-182): the
maximum of the three component AQIs and the constant 50 ("Minimum 50 for
safety"), then clamped to at most 500. -/
def calculate_aqi_fallback (request : AQIRequest) : ℚ :=
  let pm25_aqi := calculate_component request.pm25 pm25Breakpoints
  let pm10_aqi := calculate_component request.pm10 pm10Breakpoints
  let no2_aqi := calculate_component request.no2 no2Breakpoints
  let aqi_value := max (max (max pm25_aqi pm10_aqi) no2_aqi) 50
  min 500 (max 0 aqi_value)

/-- Response record for the AQI route. -/
structure AQIResponse where
  success : Bool
  aqi_value : ℚ
  category_code : String
  confidence : ℚ

/-- An AQI bundle as seen by the route: the `"model"` entry (opaque) and
the optional `"encoder"` entry. Their behaviour is irrelevant (see
`predict_aqi`). -/
structure AQIBundle where
  hasEncoder : Bool

/-- Embeds `predict_aqi` (`app/routers/aqi.py` lines 42-147). When the bundle is
absent or has no `"model"` key, the EPA-formula fallback value is used and
the normal return (confidence 0.85) is taken. When a model is present,
the feature row (lines 56-69) reads `request.temperature`,
`request.humidity`, `request.wind_speed`, `request.pressure` and
`request.visibility`, none of which exist on `AQIRequest`
(`schemas.py` lines 43-51), so building it raises `AttributeError`
before the model is ever invoked; the outer `except` (lines 121-147)
then computes the fallback value and returns it with confidence 0.75.
Either way the response is successful and carries the fallback value. -/
def predict_aqi (request : AQIRequest) (bundle : Option AQIBundle) :
    AQIResponse :=
  match bundle with
  | none =>
      let aqi_value := calculate_aqi_fallback request
      { success := true
        aqi_value := pyRound1 aqi_value
        category_code := get_aqi_category aqi_value
        confidence := 85/100 }
  | some _ =>
      let aqi_value := calculate_aqi_fallback request
      { success := true
        aqi_value := pyRound1 aqi_value
        category_code := get_aqi_category aqi_value
        confidence := 75/100 }

/-- A Python float as the CO2 route sees a model output: finite, NaN or
infinite (`np.isnan` / `np.isinf` checks on line 48 of `co2.py`). -/
inductive PyFloat where
  | fin : ℚ → PyFloat
  | nan : PyFloat
  | inf : PyFloat
  | ninf : PyFloat
deriving DecidableEq

/-- Outcome of the CO2 model's `predict` call: an exception or a float. -/
inductive CO2PredictResult where
  | raises : CO2PredictResult
  | val : PyFloat → CO2PredictResult
deriving DecidableEq

/-- A loaded CO2 scaler (`co2.py` line 42): optional declared width and a
transform on the feature row. -/
structure CO2Scaler where
  n_features_in_ : Option ℕ
  transform : List ℚ → List ℚ

/-- A loaded CO2 model bundle: `"model"` behaviour plus optional
`"scaler"`. -/
structure CO2Bundle where
  behave : List ℚ → CO2PredictResult
  scaler : Option CO2Scaler

/-- Embeds `CO2Request` (`app/models/schemas.py` lines 53-63). -/
structure CO2Request where
  year : ℤ
  month : ℤ
  temperature : ℚ
  humidity : ℚ
  pressure : ℚ
  wind_speed : ℚ

/-- The fixed 7-entry CO2 feature row (`co2.py` lines 28-36). -/
def co2Features (request : CO2Request) : List ℚ :=
  [(request.month : ℚ), (request.year : ℚ), request.temperature,
   request.humidity, request.pressure, request.wind_speed, 0]

/-- Where the CO2 route's reported value comes from.
`fallbackValue` denotes `calculate_co2_fallback(request)` — that formula
(`co2.py` lines 119-130) uses `np.sin` for its seasonal term, so its
numeric value is transcendental and is left symbolic here; every claim
about the CO2 route concerns only which of the two sources produced the
reported number. -/
inductive Co2Value where
  | modelValue : ℚ → Co2Value
  | fallbackValue : Co2Value
deriving DecidableEq

/-- Scaling step of `predict_co2` (`co2.py` lines 28-43): the fixed
7-entry feature row, transformed by the scaler only when one is attached
and declares `n_features_in_ == 7`; otherwise used as built. -/
def co2ScaledFeatures (request : CO2Request) (b : CO2Bundle) : List ℚ :=
  match b.scaler with
  | some s => if s.n_features_in_ = some 7 then s.transform (co2Features request)
              else co2Features request
  | none => co2Features request

/-- Value-selection logic of `predict_co2` (`app/routers/co2.py` lines
16-54 and the outer `except` at lines 92-96): with a model present, the
feature row is built, scaled (see `co2ScaledFeatures`), and predicted; a
raised exception or a NaN/infinite prediction (line 48) lands in the
outer handler which reports the rule-based fallback value; with no model
the fallback value is reported directly. -/
def co2PipelineValue (request : CO2Request) (bundle : Option CO2Bundle) :
    Co2Value :=
  match bundle with
  | none => .fallbackValue
  | some b =>
      match b.behave (co2ScaledFeatures request b) with
      | .raises => .fallbackValue
      | .val .nan => .fallbackValue
      | .val .inf => .fallbackValue
      | .val .ninf => .fallbackValue
      | .val (.fin q) => .modelValue q

/-- State of the `ModelLoader` singleton (`app/models/loader.py` lines
22-35): the catalog `_models` (`domain → component → predictor`, embedded
as an insertion-ordered association list) and the `_loaded` re-entry
flag. `α` is the type of loaded predictor capabilities, opaque to the
loader. Both start empty/false as class attributes. -/
structure LoaderState (α : Type) where
  models : List (String × List (String × α))
  loaded : Bool
deriving DecidableEq

/-- Python's `str.endswith(suffix)`: does `suffix` end the string?
(Expressed on the character lists so that it evaluates by kernel
reduction.) -/
def pyEndsWith (s suffix : String) : Bool := suffix.data.isSuffixOf s.data

/-- One iteration of the inner component loop of `load_all_models`
(`loader.py` lines 70-90): paths ending in `.h5`/`.keras` go to the
Keras loader, paths ending in `.pkl` to the joblib loader, any other
extension is logged and skipped (`continue`); the fetch/deserialize
attempt itself is `oracle path` (`hf_hub_download` + deserialization),
whose failure (`none`) is caught, logged, and leaves the slot absent. -/
def tryLoadComponent {α : Type} (oracle : String → Option α)
    (comp : String × String) : Option (String × α) :=
  if pyEndsWith comp.2 ".h5" || pyEndsWith comp.2 ".keras" ||
     pyEndsWith comp.2 ".pkl" then
    match oracle comp.2 with
    | some a => some (comp.1, a)
    | none => none
  else none

/-- The component loop for one domain: every configured component is
attempted independently; failed or unsupported slots are simply absent
from the resulting bundle. -/
def loadComponents {α : Type} (oracle : String → Option α)
    (components : List (String × String)) : List (String × α) :=
  components.filterMap (tryLoadComponent oracle)

/-- Embeds `ModelLoader.load_all_models` (`app/models/loader.py` lines 59-102).
If `_loaded` is already set the call is a no-op (lines 60-62). Otherwise
every configured `(domain, component, path)` triple is processed: the
domain key is always inserted (`self._models[model_name] = {}`, line
68), then each component is loaded or left absent. After the loop,
`if not self._models: raise RuntimeError(...)` (lines 98-99) — note this
tests the *outer* dict, which holds one key per configured domain
whether or not any component loaded, so it is empty exactly when the
configuration itself is empty. On the non-raising path `_loaded` is set.
The embedding rebuilds the catalog from the configuration, which matches
the source because `_models` is empty before the first (and only
effective) call. -/
def load_all_models {α : Type} (cfg : List (String × List (String × String)))
    (oracle : String → Option α) (s : LoaderState α) :
    Except String (LoaderState α) :=
  if s.loaded then .ok s
  else if (cfg.map (fun p => (p.1, loadComponents oracle p.2))).isEmpty then
    .error "No ML models were loaded at all. Startup aborted."
  else .ok { models := cfg.map (fun p => (p.1, loadComponents oracle p.2)),
             loaded := true }

/-- Embeds `Settings.MODEL_PATHS` from `app/config.py` (lines 45-100): the
configured (domain, component, artifact-path) triples. -/
def MODEL_PATHS : List (String × List (String × String)) :=
  [("aqi", [("model", "aqi/aqi_xgb.pkl"),
            ("encoder", "aqi/city_encoder.pkl")]),
   ("co2", [("model", "co2/co2_model.pkl"),
            ("scaler", "co2/co2_scaler.pkl")]),
   ("crop", [("model", "crop/crop_xgboost.pkl"),
             ("scaler", "crop/crop_scaler.pkl"),
             ("encoder", "crop/crop_label_encoder.pkl")]),
   ("flood", [("model", "flood/flood_rf.pkl"),
              ("encoders", "flood/flood_encoders.pkl")]),
   ("ndvi", [("model", "ndvi/ndvi_rf.pkl")]),
   ("plant_disease", [("model", "plant_disease/plant_disease.h5")]),
   ("price", [("model", "price/crop_price_xgb.pkl"),
              ("encoders", "price/price_encoders.pkl")]),
   ("profit", [("model", "profit/crop_profit_model.pkl"),
               ("encoders", "profit/profit_encoders.pkl")]),
   ("rainfall", [("model", "rainfall/rainfall_rf.pkl"),
                 ("encoder", "rainfall/subdivision_encoder.pkl")]),
   ("soil_cnn", [("model", "soil/soil_model.pkl")]),
   ("soil_health", [("model", "soil_health/soil_health_xgb.pkl"),
                    ("scaler", "soil_health/scaler.pkl"),
                    ("encoder", "soil_health/label_encoder.pkl")]),
   ("storm", [("model", "storm/storm_rf.pkl"),
              ("encoders", "storm/storm_encoders.pkl")]),
   ("water", [("model", "water/water_rf.pkl")]),
   ("yield", [("model", "yield/yield_xgb.pkl"),
              ("encoders", "yield/label_encoders.pkl")])]

lemma clamp01_nonneg (x : ℚ) : 0 ≤ max 0 (min 1 x) := le_max_left 0 _

lemma clamp01_le_one (x : ℚ) : max 0 (min 1 x) ≤ 1 :=
  max_le zero_le_one (min_le_left 1 x)

lemma roundHalfEvenZ_nonneg {x : ℚ} (hx : 0 ≤ x) : 0 ≤ roundHalfEvenZ x := by
  have hn : (0 : ℤ) ≤ ⌊x⌋ := Int.floor_nonneg.mpr hx
  unfold roundHalfEvenZ
  split_ifs <;> omega

lemma roundHalfEvenZ_le {x : ℚ} {B : ℤ} (hx : x ≤ B) : roundHalfEvenZ x ≤ B := by
  have hfl : ⌊x⌋ ≤ B := by
    have := Int.floor_le_floor hx
    simpa using this
  unfold roundHalfEvenZ
  split_ifs with h1 h2 h3
  · exact hfl
  · -- x - ⌊x⌋ > 1/2, so ⌊x⌋ + 1/2 < x ≤ B and hence ⌊x⌋ < B
    have hq : (⌊x⌋ : ℚ) < (B : ℚ) := by linarith
    have : ⌊x⌋ < B := by exact_mod_cast hq
    omega
  · exact hfl
  · -- tie case x = ⌊x⌋ + 1/2 ≤ B, so ⌊x⌋ < B
    have heq : x - ⌊x⌋ = 1/2 := le_antisymm (not_lt.mp h2) (not_lt.mp h1)
    have hq : (⌊x⌋ : ℚ) < (B : ℚ) := by linarith
    have : ⌊x⌋ < B := by exact_mod_cast hq
    omega

lemma pyRound1_nonneg {x : ℚ} (hx : 0 ≤ x) : 0 ≤ pyRound1 x := by
  unfold pyRound1
  have : (0 : ℤ) ≤ roundHalfEvenZ (x * 10) :=
    roundHalfEvenZ_nonneg (by linarith)
  have : (0 : ℚ) ≤ (roundHalfEvenZ (x * 10) : ℚ) := by exact_mod_cast this
  linarith

lemma pyRound1_le_100 {x : ℚ} (hx : x ≤ 100) : pyRound1 x ≤ 100 := by
  unfold pyRound1
  have h1 : x * 10 ≤ ((1000 : ℤ) : ℚ) := by push_cast; linarith
  have h2 : roundHalfEvenZ (x * 10) ≤ 1000 := roundHalfEvenZ_le h1
  have h3 : (roundHalfEvenZ (x * 10) : ℚ) ≤ 1000 := by exact_mod_cast h2
  linarith

lemma floodRiskLevel_mem (p : ℚ) :
    floodRiskLevel p ∈ (["low", "moderate", "high"] : List String) := by
  unfold floodRiskLevel
  split_ifs <;> simp

lemma stormRiskLevel_mem (p : ℚ) :
    stormRiskLevel p ∈ (["low", "moderate", "high"] : List String) := by
  unfold stormRiskLevel
  split_ifs <;> simp

lemma floodRiskLevel_mono {p q : ℚ} (h : p ≤ q) :
    riskRank (floodRiskLevel p) ≤ riskRank (floodRiskLevel q) := by
  unfold floodRiskLevel
  split_ifs <;> first | decide | linarith

lemma stormRiskLevel_mono {p q : ℚ} (h : p ≤ q) :
    riskRank (stormRiskLevel p) ≤ riskRank (stormRiskLevel q) := by
  unfold stormRiskLevel
  split_ifs <;> first | decide | linarith

lemma get_aqi_category_mem (v : ℚ) :
    get_aqi_category v ∈ (["good", "moderate", "unhealthy_sensitive",
      "unhealthy", "very_unhealthy", "hazardous"] : List String) := by
  unfold get_aqi_category
  split_ifs <;> simp

lemma get_aqi_category_eq_good_iff (v : ℚ) :
    get_aqi_category v = "good" ↔ v ≤ 50 := by
  unfold get_aqi_category
  split_ifs with h1 h2 h3 h4 h5 <;> simp_all

lemma floodPipelineProbability_bounds (request : FloodRequest)
    (model : Option FloodModel) :
    0 ≤ floodPipelineProbability request model ∧
      floodPipelineProbability request model ≤ 1 := by
  unfold floodPipelineProbability
  exact ⟨clamp01_nonneg _, clamp01_le_one _⟩

lemma stormPipelineProbability_bounds (request : StormRequest)
    (model : Option StormModel) :
    0 ≤ stormPipelineProbability request model ∧
      stormPipelineProbability request model ≤ 1 := by
  unfold stormPipelineProbability
  exact ⟨clamp01_nonneg _, clamp01_le_one _⟩

/-- A concrete flood request: rainfall 50mm, river level 2, elevation
200, no flood history. Its rule-based risk is 0.1+0.1+0.05+0 = 0.25. -/
def floodReq0 : FloodRequest := ⟨50, 2, 200, 0⟩

/-- Scenario A's request: rainfall 250mm, river level 8, elevation 40,
flood history 3. Its rule-based risk is 0.3+0.2+0.15+0.09 = 0.74. -/
def floodReq250 : FloodRequest := ⟨250, 8, 40, 3⟩

/-- A flood predictor with no declared width whose prediction always
succeeds with the value `q`. -/
def constFloodModel (q : ℚ) : FloodModel := ⟨none, fun _ => .ok q⟩

/-- A storm predictor with no declared width whose prediction always
succeeds with the value `q`. -/
def constStormModel (q : ℚ) : StormModel := ⟨none, fun _ => .ok q⟩

/-- A concrete AQI request with every pollutant concentration zero: all
three component AQIs interpolate to 0, so the fallback is the safety
floor `max(…, 50) = 50`. -/
def aqiReq0 : AQIRequest := ⟨"TestCity", 0, 0, 0, 0, 0, 0⟩

/-- A concrete CO2 request (May 2024, 25°C, 60%, 1010 hPa, 10 km/h). -/
def co2Req0 : CO2Request := ⟨2024, 5, 25, 60, 1010, 10⟩

/-- A CO2 model bundle with no scaler whose prediction always produces
the outcome `r`. -/
def constCO2Bundle (r : CO2PredictResult) : CO2Bundle := ⟨fun _ => r, none⟩

lemma lookup_map_values {β γ : Type} (f : β → γ) (l : List (String × β))
    (a : String) :
    (l.map (fun p => (p.1, f p.2))).lookup a = (l.lookup a).map f := by
  induction l with
  | nil => simp
  | cons hd tl ih =>
    obtain ⟨k, v⟩ := hd
    by_cases hak : a == k
    · simp [List.lookup, hak]
    · simp [List.lookup, hak, ih]

/-- C1. For every domain with a rule-based estimator (flood, storm, AQI)
and every validated request, the prediction endpoint returns a
successful response (`success=True` carrying a numeric value), for every
possible registry state — including an entirely empty bundle (`none`)
and a loaded model whose predict raises (`behave _ = .raises`) — and
also on the outer exception-handler paths: artifact-unavailable,
feature-mismatch and invalid-model-output conditions never surface an
error to the caller. -/
theorem C1_infer_always_succeeds :
    (∀ (req : FloodRequest) (m : Option FloodModel),
        (predict_flood_risk req m).success = true) ∧
    (∀ (req : StormRequest) (m : Option StormModel),
        (predict_storm req m).success = true) ∧
    (∀ (req : AQIRequest) (b : Option AQIBundle),
        (predict_aqi req b).success = true) ∧
    floodExceptionResponse.success = true ∧
    stormExceptionResponse.success = true := by
  refine ⟨fun req m => rfl, fun req m => rfl, fun req b => ?_, rfl, rfl⟩
  cases b <;> rfl

/-- C2 counterexample. The claim "a fallback-path response reports a
strictly lower confidence than a model-path response for the same
domain" is false on the flood route: for the request `floodReq0` the
no-model fallback response (probability 25%) and the successful-model
response (probability 90%, model predicted 0.9) both report confidence
exactly 0.82 (`flood.py` line 103), so the fallback confidence is not
strictly lower. -/
theorem C2_fallback_confidence_not_lower :
    (predict_flood_risk floodReq0 none).probability_pct = 25 ∧
    (predict_flood_risk floodReq0 (some (constFloodModel (9/10)))).probability_pct = 90 ∧
    (predict_flood_risk floodReq0 none).confidence =
      (predict_flood_risk floodReq0 (some (constFloodModel (9/10)))).confidence ∧
    ¬ (predict_flood_risk floodReq0 none).confidence <
        (predict_flood_risk floodReq0 (some (constFloodModel (9/10)))).confidence := by
  refine ⟨?_, ?_, rfl, ?_⟩
  · norm_num [predict_flood_risk, floodPipelineProbability,
      calculate_flood_risk_fallback, floodReq0, pyRound1, roundHalfEvenZ]
  · norm_num [predict_flood_risk, floodPipelineProbability,
      calculate_flood_risk_fallback, floodReq0, constFloodModel, pyRound1,
      roundHalfEvenZ]
  · show ¬ (82/100 : ℚ) < 82/100
    norm_num

/-- C2 amended. Within a domain's normal flow the fallback (no-model or
model-raised) path reports the same fixed confidence as the model path
(flood 0.82, storm 0.76); only responses produced by a route's outer
exception handler report a strictly lower confidence (flood/storm 0.5).
On the AQI route the no-model fallback reports 0.85 while every
model-present request lands in the outer exception handler (the feature
row reads request attributes that do not exist on `AQIRequest`) and
reports 0.75 — so there the fallback path's confidence is strictly
higher than any model-present response, not lower. -/
theorem C2_confidence_constants :
    (∀ (req : FloodRequest) (m : Option FloodModel),
        (predict_flood_risk req m).confidence = 82/100) ∧
    floodExceptionResponse.confidence < 82/100 ∧
    (∀ (req : StormRequest) (m : Option StormModel),
        (predict_storm req m).confidence = 76/100) ∧
    stormExceptionResponse.confidence < 76/100 ∧
    (∀ req : AQIRequest, (predict_aqi req none).confidence = 85/100) ∧
    (∀ (req : AQIRequest) (b : AQIBundle),
        (predict_aqi req (some b)).confidence = 75/100) ∧
    (75/100 : ℚ) < 85/100 := by
  refine ⟨fun req m => rfl, ?_, fun req m => rfl, ?_, fun req => rfl,
    fun req b => rfl, by norm_num⟩
  · show (1/2 : ℚ) < 82/100
    norm_num
  · show (1/2 : ℚ) < 76/100
    norm_num

/-- C7. Scenario A (flood, fallback-only): for rainfall 250mm, river
level 8, elevation 40, flood history 3 and no model loaded, the
rule-based probability is 0.74, the bucket is "high" (hence "moderate"
or "high"), the reported percentage is 74.0, and the confidence equals
0.82 — the fixed constant the flood route reports on its fallback path
(`flood.py` line 103; the route uses the same constant on the model
path). -/
theorem C7_scenario_flood_fallback :
    (predict_flood_risk floodReq250 none).risk_level = "high" ∧
    ((predict_flood_risk floodReq250 none).risk_level = "moderate" ∨
      (predict_flood_risk floodReq250 none).risk_level = "high") ∧
    (predict_flood_risk floodReq250 none).probability_pct = 74 ∧
    (predict_flood_risk floodReq250 none).confidence = 82/100 := by
  have hlevel : (predict_flood_risk floodReq250 none).risk_level = "high" := by
    norm_num [predict_flood_risk, floodPipelineProbability,
      calculate_flood_risk_fallback, floodReq250, floodRiskLevel]
  refine ⟨hlevel, Or.inr hlevel, ?_, rfl⟩
  norm_num [predict_flood_risk, floodPipelineProbability,
    calculate_flood_risk_fallback, floodReq250, pyRound1, roundHalfEvenZ]

/-- C3 (code bug). When every configured artifact fails to fetch or
deserialize (the oracle returns failure on every path), `load_all_models`
on the shipped `MODEL_PATHS` completes normally — it does not raise —
leaving every one of the 14 domains mapped to an empty bundle, i.e. a
catalog with no predictor at all. The guard `if not self._models: raise`
(`loader.py` lines 98-99) tests the outer dict, which already holds one
key per configured domain (line 68), so the raise whose own message is
"No ML models were loaded at all. Startup aborted." can only fire when
`MODEL_PATHS` itself is empty, never in the all-loads-failed state it
describes. -/
theorem C3_empty_load_completes_without_raise :
    load_all_models MODEL_PATHS (fun _ => (none : Option Unit)) ⟨[], false⟩ =
      .ok ⟨MODEL_PATHS.map (fun p => (p.1, [])), true⟩ ∧
    MODEL_PATHS.length = 14 ∧
    (MODEL_PATHS.map (fun p => (p.1, ([] : List (String × Unit))))).all
      (fun e => e.2.isEmpty) = true := by
  exact ⟨rfl, rfl, rfl⟩

/-- C5. Classification is exhaustive and monotone: every rational value
maps to a bucket of the domain's fixed bucket list (and, these being
total functions, to exactly one), and for the risk-style domains (flood,
storm) raising the value never moves the bucket to a safer category
(thresholds ≥ 0.7 high, ≥ 0.4 moderate, else low; AQI buckets ≤ 50 good
through > 300 hazardous). -/
theorem C5_classification_monotone_exhaustive :
    (∀ v : ℚ, floodRiskLevel v ∈ (["low", "moderate", "high"] : List String)) ∧
    (∀ v : ℚ, stormRiskLevel v ∈ (["low", "moderate", "high"] : List String)) ∧
    (∀ v : ℚ, get_aqi_category v ∈ (["good", "moderate",
      "unhealthy_sensitive", "unhealthy", "very_unhealthy",
      "hazardous"] : List String)) ∧
    (∀ p q : ℚ, p ≤ q →
      riskRank (floodRiskLevel p) ≤ riskRank (floodRiskLevel q)) ∧
    (∀ p q : ℚ, p ≤ q →
      riskRank (stormRiskLevel p) ≤ riskRank (stormRiskLevel q)) :=
  ⟨floodRiskLevel_mem, stormRiskLevel_mem, get_aqi_category_mem,
   fun _ _ h => floodRiskLevel_mono h, fun _ _ h => stormRiskLevel_mono h⟩

/-- Witness for C5 at concrete inputs 0.3 ≤ 0.8. -/
theorem C5_classification_witness :
    (3/10 : ℚ) ≤ 8/10 ∧
    riskRank (floodRiskLevel (3/10)) ≤ riskRank (floodRiskLevel (8/10)) ∧
    riskRank (stormRiskLevel (3/10)) ≤ riskRank (stormRiskLevel (8/10)) :=
  ⟨by norm_num,
   C5_classification_monotone_exhaustive.2.2.2.1 (3/10) (8/10) (by norm_num),
   C5_classification_monotone_exhaustive.2.2.2.2 (3/10) (8/10) (by norm_num)⟩

/-- C9. Every normal-flow flood or storm response (the exception-handler
responses are separate constants) reports a probability percentage in
[0, 100] and a risk level drawn from exactly {low, moderate, high},
because the probability is clamped into [0, 1] before rounding and
classification, whichever path produced it. -/
theorem C9_probability_clamped_invariant :
    ∀ (freq : FloodRequest) (fm : Option FloodModel) (sreq : StormRequest)
      (sm : Option StormModel),
      0 ≤ (predict_flood_risk freq fm).probability_pct ∧
      (predict_flood_risk freq fm).probability_pct ≤ 100 ∧
      (predict_flood_risk freq fm).risk_level ∈
        (["low", "moderate", "high"] : List String) ∧
      0 ≤ (predict_storm sreq sm).probability_pct ∧
      (predict_storm sreq sm).probability_pct ≤ 100 ∧
      (predict_storm sreq sm).risk_level ∈
        (["low", "moderate", "high"] : List String) := by
  intro freq fm sreq sm
  obtain ⟨hf0, hf1⟩ := floodPipelineProbability_bounds freq fm
  obtain ⟨hs0, hs1⟩ := stormPipelineProbability_bounds sreq sm
  refine ⟨?_, ?_, floodRiskLevel_mem _, ?_, ?_, stormRiskLevel_mem _⟩
  · exact pyRound1_nonneg (by nlinarith)
  · exact pyRound1_le_100 (by nlinarith)
  · exact pyRound1_nonneg (by nlinarith)
  · exact pyRound1_le_100 (by nlinarith)

/-- C4 counterexample. The claim "if W < N the vector sent to the
predictor consists of exactly the first W canonical entries" fails on
the flood route for a predictor declaring width W = 0: Python's
`if expected_features:` treats 0 as falsy, so the full 4-entry canonical
vector is sent instead of the empty prefix. -/
theorem C4_width_zero_counterexample :
    floodReconcile [250, 8, 40, 3] (some 0) = [250, 8, 40, 3] ∧
    ([250, 8, 40, 3] : List ℚ).take 0 = [] ∧
    floodReconcile [250, 8, 40, 3] (some 0) ≠
      ([250, 8, 40, 3] : List ℚ).take 0 := by
  refine ⟨rfl, rfl, ?_⟩
  simp [floodReconcile]

/-- C4 amended. For every canonical feature list and every predictor
declaring a positive width W, the flood adapter pads with trailing zeros
to length W when W > N and truncates to the first W entries when W ≤ N;
an undeclared width — and, on the flood route only, a declared width of
0 (falsy in Python) — leaves the canonical vector unmodified. The storm
adapter behaves the same except that it truncates for every declared
W ≤ N including 0, and its undeclared case defaults the width to N. -/
theorem C4_reconcile_amended :
    (∀ (base : List ℚ) (w : ℕ), 1 ≤ w →
      (base.length < w →
        floodReconcile base (some w) =
          base ++ List.replicate (w - base.length) 0) ∧
      (w ≤ base.length → floodReconcile base (some w) = base.take w)) ∧
    (∀ base : List ℚ, floodReconcile base none = base) ∧
    (∀ base : List ℚ, floodReconcile base (some 0) = base) ∧
    (∀ (base : List ℚ) (w : ℕ),
      (base.length < w →
        stormReconcile base (some w) =
          base ++ List.replicate (w - base.length) 0) ∧
      (w ≤ base.length → stormReconcile base (some w) = base.take w)) ∧
    (∀ base : List ℚ, stormReconcile base none = base) := by
  refine ⟨fun base w hw => ⟨fun hlt => ?_, fun hle => ?_⟩,
    fun base => rfl, fun base => rfl,
    fun base w => ⟨fun hlt => ?_, fun hle => ?_⟩, fun base => ?_⟩
  · simp only [floodReconcile]
    rw [if_neg (by omega), if_pos (by omega)]
  · simp only [floodReconcile]
    by_cases hw0 : w = 0
    · subst hw0; omega
    · rw [if_neg hw0, if_neg (by omega)]
  · simp only [stormReconcile, Option.getD_some]
    rw [if_pos (by omega)]
  · simp only [stormReconcile, Option.getD_some]
    rw [if_neg (by omega)]
  · simp only [stormReconcile, Option.getD_none]
    rw [if_neg (by omega), List.take_length]

/-- Witness for C4 amended: the flood adapter pads [250, 8, 40, 3] to
width 6 and truncates it to width 2; the storm adapter truncates to
width 2; with no declared width each returns the canonical vector. -/
theorem C4_reconcile_amended_witness :
    (1 ≤ 6 ∧ ([250, 8, 40, 3] : List ℚ).length < 6 ∧
      floodReconcile [250, 8, 40, 3] (some 6) =
        [250, 8, 40, 3] ++
          List.replicate (6 - ([250, 8, 40, 3] : List ℚ).length) 0) ∧
    (1 ≤ 2 ∧ 2 ≤ ([250, 8, 40, 3] : List ℚ).length ∧
      floodReconcile [250, 8, 40, 3] (some 2) =
        ([250, 8, 40, 3] : List ℚ).take 2) ∧
    stormReconcile [250, 8, 40, 3] (some 2) =
      ([250, 8, 40, 3] : List ℚ).take 2 :=
  ⟨⟨by norm_num, by simp,
    (C4_reconcile_amended.1 [250, 8, 40, 3] 6 (by norm_num)).1 (by simp)⟩,
   ⟨by norm_num, by simp,
    (C4_reconcile_amended.1 [250, 8, 40, 3] 2 (by norm_num)).2 (by simp)⟩,
   (C4_reconcile_amended.2.2.2.1 [250, 8, 40, 3] 2).2 (by simp)⟩

/-- C6 counterexample. The claim "a model output outside the domain's
valid range is rejected and the reported value is the rule-based
fallback's" fails on the flood route: for `floodReq0` (fallback
probability 0.25, i.e. 25%) a model returning 5.0 — far outside the
valid probability range [0, 1] — is not rejected; the route clamps it to
1.0 and reports 100%, not the fallback's 25%. -/
theorem C6_clamp_counterexample :
    (predict_flood_risk floodReq0 (some (constFloodModel 5))).probability_pct = 100 ∧
    pyRound1 (calculate_flood_risk_fallback floodReq0 * 100) = 25 ∧
    (predict_flood_risk floodReq0 (some (constFloodModel 5))).probability_pct ≠
      pyRound1 (calculate_flood_risk_fallback floodReq0 * 100) := by
  have h1 : (predict_flood_risk floodReq0 (some (constFloodModel 5))).probability_pct = 100 := by
    norm_num [predict_flood_risk, floodPipelineProbability,
      calculate_flood_risk_fallback, floodReq0, constFloodModel, pyRound1,
      roundHalfEvenZ]
  have h2 : pyRound1 (calculate_flood_risk_fallback floodReq0 * 100) = 25 := by
    norm_num [calculate_flood_risk_fallback, floodReq0, pyRound1,
      roundHalfEvenZ]
  exact ⟨h1, h2, by rw [h1, h2]; norm_num⟩

/-- C6 amended. Only the CO2 route rejects invalid model output: a
raised prediction or a NaN/infinite value makes it report the rule-based
fallback value, while a finite value is reported as the model's. The
flood and storm routes do not reject out-of-range outputs at all — they
clamp the model's value into [0, 1] and report the clamped model value
(100% / "high" for any output above 1, 0% / "low" for any output below
0), not the fallback value. -/
theorem C6_validation_amended :
    (∀ (req : FloodRequest) (m : FloodModel) (v : ℚ),
      m.behave (floodReconcile (floodBaseFeatures req) m.n_features_in_) = .ok v →
      1 < v →
      (predict_flood_risk req (some m)).probability_pct = 100 ∧
      (predict_flood_risk req (some m)).risk_level = "high") ∧
    (∀ (req : FloodRequest) (m : FloodModel) (v : ℚ),
      m.behave (floodReconcile (floodBaseFeatures req) m.n_features_in_) = .ok v →
      v < 0 →
      (predict_flood_risk req (some m)).probability_pct = 0 ∧
      (predict_flood_risk req (some m)).risk_level = "low") ∧
    (∀ (req : StormRequest) (m : StormModel) (v : ℚ),
      m.behave (stormReconcile (stormBaseFeatures req) m.n_features_in_) = .ok v →
      1 < v →
      (predict_storm req (some m)).probability_pct = 100 ∧
      (predict_storm req (some m)).risk_level = "high") ∧
    (∀ (req : CO2Request) (b : CO2Bundle),
      (b.behave (co2ScaledFeatures req b) = .raises ∨
       b.behave (co2ScaledFeatures req b) = .val .nan ∨
       b.behave (co2ScaledFeatures req b) = .val .inf ∨
       b.behave (co2ScaledFeatures req b) = .val .ninf) →
      co2PipelineValue req (some b) = .fallbackValue) ∧
    (∀ (req : CO2Request) (b : CO2Bundle) (q : ℚ),
      b.behave (co2ScaledFeatures req b) = .val (.fin q) →
      co2PipelineValue req (some b) = .modelValue q) := by
  refine ⟨fun req m v hb hv => ?_, fun req m v hb hv => ?_,
    fun req m v hb hv => ?_, fun req b hb => ?_, fun req b q hb => ?_⟩
  · have hp : floodPipelineProbability req (some m) = 1 := by
      simp only [floodPipelineProbability, hb]
      rw [min_eq_left (le_of_lt hv), max_eq_right zero_le_one]
    constructor
    · show pyRound1 (floodPipelineProbability req (some m) * 100) = 100
      rw [hp]; norm_num [pyRound1, roundHalfEvenZ]
    · show floodRiskLevel (floodPipelineProbability req (some m)) = "high"
      rw [hp]; norm_num [floodRiskLevel]
  · have hp : floodPipelineProbability req (some m) = 0 := by
      simp only [floodPipelineProbability, hb]
      rw [min_eq_right (by linarith), max_eq_left (by linarith)]
    constructor
    · show pyRound1 (floodPipelineProbability req (some m) * 100) = 0
      rw [hp]; norm_num [pyRound1, roundHalfEvenZ]
    · show floodRiskLevel (floodPipelineProbability req (some m)) = "low"
      rw [hp]; norm_num [floodRiskLevel]
  · have hp : stormPipelineProbability req (some m) = 1 := by
      simp only [stormPipelineProbability, hb]
      rw [min_eq_left (le_of_lt hv), max_eq_right zero_le_one]
    constructor
    · show pyRound1 (stormPipelineProbability req (some m) * 100) = 100
      rw [hp]; norm_num [pyRound1, roundHalfEvenZ]
    · show stormRiskLevel (stormPipelineProbability req (some m)) = "high"
      rw [hp]; norm_num [stormRiskLevel]
  · rcases hb with h | h | h | h <;> simp [co2PipelineValue, h]
  · simp [co2PipelineValue, hb]

/-- Witness for C6 amended: a flood model returning 5.0 is clamped to a
100% / "high" response, and a raising CO2 model yields the fallback
value. -/
theorem C6_validation_amended_witness :
    ((constFloodModel 5).behave
        (floodReconcile (floodBaseFeatures floodReq0)
          (constFloodModel 5).n_features_in_) = .ok 5 ∧
      (1 : ℚ) < 5 ∧
      (predict_flood_risk floodReq0 (some (constFloodModel 5))).probability_pct = 100 ∧
      (predict_flood_risk floodReq0 (some (constFloodModel 5))).risk_level = "high") ∧
    co2PipelineValue co2Req0 (some (constCO2Bundle .raises)) = .fallbackValue :=
  ⟨⟨rfl, by norm_num,
    (C6_validation_amended.1 floodReq0 (constFloodModel 5) 5 rfl (by norm_num)).1,
    (C6_validation_amended.1 floodReq0 (constFloodModel 5) 5 rfl (by norm_num)).2⟩,
   C6_validation_amended.2.2.2.1 co2Req0 (constCO2Bundle .raises) (Or.inl rfl)⟩

/-- C10 counterexample. The claim "an AQI value produced by the fallback
path is never categorized as good" fails at the all-zero pollutant
request: every component AQI interpolates to 0, the safety floor lifts
the value to exactly 50, and `get_aqi_category 50 = "good"` (the good
bucket is `aqi_value <= 50`). -/
theorem C10_fallback_good_counterexample :
    calculate_aqi_fallback aqiReq0 = 50 ∧
    get_aqi_category (calculate_aqi_fallback aqiReq0) = "good" := by
  have hv : calculate_aqi_fallback aqiReq0 = 50 := by
    norm_num [calculate_aqi_fallback, calculate_component, pm25Breakpoints,
      pm10Breakpoints, no2Breakpoints, aqiReq0]
  exact ⟨hv, by rw [hv]; norm_num [get_aqi_category]⟩

/-- C10 amended. For every input the AQI fallback calculator returns a
value in the closed interval [50, 500] (maximum of the component AQIs
with the constant 50, then clamped to at most 500); consequently a
fallback value is categorized as "good" exactly when it is the boundary
value 50 — i.e. when every component AQI is at most 50 — and never for
any value above 50. -/
theorem C10_aqi_fallback_amended :
    ∀ req : AQIRequest,
      50 ≤ calculate_aqi_fallback req ∧
      calculate_aqi_fallback req ≤ 500 ∧
      (get_aqi_category (calculate_aqi_fallback req) = "good" ↔
        calculate_aqi_fallback req = 50) := by
  intro req
  have h50 : 50 ≤ calculate_aqi_fallback req := by
    simp only [calculate_aqi_fallback]
    refine le_min (by norm_num) ?_
    exact le_trans (le_max_right _ 50) (le_max_right 0 _)
  have h500 : calculate_aqi_fallback req ≤ 500 := by
    simp only [calculate_aqi_fallback]
    exact min_le_left _ _
  refine ⟨h50, h500, ?_⟩
  rw [get_aqi_category_eq_good_iff]
  exact ⟨fun hle => le_antisymm hle h50, fun heq => heq.le⟩

/-- A partial-availability loader scenario: two configured domains; the
artifact fetch fails for both flood components and succeeds for the ndvi
model. -/
def partialCfg : List (String × List (String × String)) :=
  [("flood", [("model", "flood/flood_rf.pkl"),
              ("encoders", "flood/flood_encoders.pkl")]),
   ("ndvi", [("model", "ndvi/ndvi_rf.pkl")])]

/-- The fetch oracle of the scenario: only the ndvi artifact loads. -/
def partialOracle : String → Option ℕ :=
  fun path => if path = "ndvi/ndvi_rf.pkl" then some 1 else none

/-- The loader state the scenario ends in: flood's bundle is empty,
ndvi's holds its model, and the loaded flag is set. -/
def partialState : LoaderState ℕ :=
  ⟨[("flood", []), ("ndvi", [("model", 1)])], true⟩

/-- Lookup key for the flood domain in the partial-availability
scenario. -/
def floodKey : String := "flood"

/-- Lookup key for the ndvi domain in the partial-availability
scenario. -/
def ndviKey : String := "ndvi"

/-- C8. The loader is idempotent — any state a completed call returns is
a fixed point of a second call (the loaded flag guards re-entry) — and
within a single load from the fresh state each domain's bundle depends
only on that domain's own configured components and the oracle
(`lookup` commutes with the per-domain component loop), so one
component's failure neither aborts the remaining triples nor escapes the
call: with a nonempty configuration the load always returns `.ok`. -/
theorem C8_loader_idempotent_isolated :
    (∀ (α : Type) (cfg : List (String × List (String × String)))
        (oracle : String → Option α) (s s' : LoaderState α),
        load_all_models cfg oracle s = .ok s' →
        load_all_models cfg oracle s' = .ok s') ∧
    (∀ (α : Type) (cfg : List (String × List (String × String)))
        (oracle : String → Option α),
        cfg ≠ [] →
        ∃ s' : LoaderState α,
          load_all_models cfg oracle ⟨[], false⟩ = .ok s') ∧
    (∀ (α : Type) (cfg : List (String × List (String × String)))
        (oracle : String → Option α) (s' : LoaderState α) (n : String),
        load_all_models cfg oracle ⟨[], false⟩ = .ok s' →
        s'.models.lookup n = (cfg.lookup n).map (loadComponents oracle)) := by
  refine ⟨fun α cfg oracle s s' h => ?_, fun α cfg oracle hne => ?_,
    fun α cfg oracle s' n h => ?_⟩
  · by_cases hl : s.loaded = true
    · have he : load_all_models cfg oracle s = .ok s := by
        unfold load_all_models
        rw [if_pos hl]
      rw [he] at h
      injection h with h2
      subst h2
      exact he
    · unfold load_all_models at h
      rw [if_neg hl] at h
      split at h
      · exact Except.noConfusion h
      · injection h with h2
        subst h2
        unfold load_all_models
        rw [if_pos rfl]
  · cases cfg with
    | nil => exact absurd rfl hne
    | cons hd tl =>
        refine ⟨⟨(hd :: tl).map (fun p => (p.1, loadComponents oracle p.2)),
          true⟩, ?_⟩
        rfl
  · cases cfg with
    | nil => exact Except.noConfusion h
    | cons hd tl =>
        have h' : Except.ok (ε := String)
            (LoaderState.mk
              ((hd :: tl).map (fun p => (p.1, loadComponents oracle p.2)))
              true) = .ok s' := h
        injection h' with h2
        subst h2
        exact lookup_map_values _ _ n

/-- Witness for C8 at the partial-availability scenario: loading from
the fresh state yields the partial state (flood empty, ndvi loaded),
a second call on that state is a no-op returning it unchanged, and the
per-domain lookups confirm the failed domain's bundle is empty while the
other's is intact. -/
theorem C8_loader_witness :
    load_all_models partialCfg partialOracle ⟨[], false⟩ = .ok partialState ∧
    load_all_models partialCfg partialOracle partialState = .ok partialState ∧
    partialState.models.lookup floodKey = some [] ∧
    partialState.models.lookup ndviKey = some [("model", 1)] := by
  have h1 : load_all_models partialCfg partialOracle ⟨[], false⟩ =
      .ok partialState := by rfl
  exact ⟨h1, C8_loader_idempotent_isolated.1 ℕ partialCfg partialOracle
    ⟨[], false⟩ partialState h1, rfl, rfl⟩
